import Mathlib

set_option maxRecDepth 100000

/-!
# Verification of the gitbot git-state automation engine

Shallow embedding of the gitbot webhook service (`gitbot/deployhook.py`,
`lib.py`) and proofs about its signature verification, event
classification, version-bump and revert workflows.

Bytes are modelled as `Nat` values below 256; 32-bit machine arithmetic
is modelled as `Nat` arithmetic reduced modulo `2 ^ 32`.
-/

/-! ## Signature verification (`valid_payload` in `gitbot/deployhook.py`)

`valid_payload` computes `hmac.new(secret.encode("utf-8"), payload,
hashlib.sha1).hexdigest()` and compares it with the provided signature
via `hmac.compare_digest`.  We embed HMAC-SHA1 (RFC 2104 / RFC 3174),
which is what `hmac`/`hashlib` compute. -/

/-- Truncate to a 32-bit word. -/
def w32 (x : Nat) : Nat := x % 4294967296

/-- 32-bit left rotation. -/
def rotl32 (n x : Nat) : Nat := ((x <<< n) ||| (x >>> (32 - n))) % 4294967296

/-- Big-endian byte decomposition: `beBytes k x` is the `k` lowest bytes
of `x`, most significant first. -/
def beBytes : Nat → Nat → List Nat
  | 0, _ => []
  | k + 1, x => (x >>> (8 * k)) % 256 :: beBytes k x

/-- SHA-1 message padding: append `0x80`, zero bytes up to 56 mod 64,
then the bit length as a 64-bit big-endian integer. -/
def sha1pad (msg : List Nat) : List Nat :=
  msg ++ 128 :: List.replicate ((119 - msg.length % 64) % 64) 0 ++ beBytes 8 (msg.length * 8)

/-- Take `k` successive chunks of 64 bytes. -/
def chunksGo : Nat → List Nat → List (List Nat)
  | 0, _ => []
  | k + 1, l => l.take 64 :: chunksGo k (l.drop 64)

/-- Split a list whose length is a multiple of 64 into 64-byte chunks. -/
def chunks64 (l : List Nat) : List (List Nat) := chunksGo (l.length / 64) l

/-- Big-endian 32-bit words from a byte list. -/
def bytesToWords : List Nat → List Nat
  | a :: b :: c :: d :: rest => (((a * 256 + b) * 256 + c) * 256 + d) :: bytesToWords rest
  | _ => []

/-- Extend the 16 message-schedule words to 80. -/
def sha1Schedule (ws : List Nat) : List Nat :=
  (List.range 64).foldl
    (fun w _ =>
      let j := w.length
      w ++ [rotl32 1 ((w.getD (j - 3) 0) ^^^ (w.getD (j - 8) 0) ^^^
        (w.getD (j - 14) 0) ^^^ (w.getD (j - 16) 0))])
    ws

/-- SHA-1 round function. -/
def sha1F (i b c d : Nat) : Nat :=
  if i < 20 then (b &&& c) ||| ((b ^^^ 4294967295) &&& d)
  else if i < 40 then b ^^^ c ^^^ d
  else if i < 60 then (b &&& c) ||| (b &&& d) ||| (c &&& d)
  else b ^^^ c ^^^ d

/-- SHA-1 round constants. -/
def sha1K (i : Nat) : Nat :=
  if i < 20 then 1518500249
  else if i < 40 then 1859775393
  else if i < 60 then 2400959708
  else 3395469782

/-- The 80 SHA-1 rounds over one chunk's schedule. -/
def sha1Rounds (w : List Nat) (st : Nat × Nat × Nat × Nat × Nat) :
    Nat × Nat × Nat × Nat × Nat :=
  (List.range 80).foldl
    (fun s i =>
      let temp := w32 (rotl32 5 s.1 + sha1F i s.2.1 s.2.2.1 s.2.2.2.1 +
        s.2.2.2.2 + sha1K i + w.getD i 0)
      (temp, s.1, rotl32 30 s.2.1, s.2.2.1, s.2.2.2.1))
    st

/-- Process one 64-byte chunk. -/
def sha1Chunk (h : Nat × Nat × Nat × Nat × Nat) (chunk : List Nat) :
    Nat × Nat × Nat × Nat × Nat :=
  let r := sha1Rounds (sha1Schedule (bytesToWords chunk)) h
  (w32 (h.1 + r.1), w32 (h.2.1 + r.2.1), w32 (h.2.2.1 + r.2.2.1),
    w32 (h.2.2.2.1 + r.2.2.2.1), w32 (h.2.2.2.2 + r.2.2.2.2))

/-- SHA-1 digest (20 bytes) of a byte list. -/
def sha1Bytes (msg : List Nat) : List Nat :=
  let r := (chunks64 (sha1pad msg)).foldl sha1Chunk
    (1732584193, 4023233417, 2562383102, 271733878, 3285377520)
  beBytes 4 r.1 ++ beBytes 4 r.2.1 ++ beBytes 4 r.2.2.1 ++
    beBytes 4 r.2.2.2.1 ++ beBytes 4 r.2.2.2.2

/-- HMAC-SHA1 (RFC 2104): keys longer than the 64-byte block are hashed,
the key is zero-padded, and two nested SHA-1 passes are taken over the
`opad`/`ipad` masked keys. -/
def hmacSha1 (key msg : List Nat) : List Nat :=
  let k0 := if 64 < key.length then sha1Bytes key else key
  let kp := k0 ++ List.replicate (64 - k0.length) 0
  sha1Bytes ((kp.map (fun b => b ^^^ 92)) ++
    sha1Bytes ((kp.map (fun b => b ^^^ 54)) ++ msg))

/-- Lower-case hex character for a nibble. -/
def hexChar (n : Nat) : Char := Char.ofNat (if n < 10 then 48 + n else 87 + n)

/-- Lower-case hex encoding of a byte list (`hexdigest` in hashlib). -/
def bytesToHex (bs : List Nat) : String :=
  String.mk (bs.foldr (fun b acc => hexChar (b / 16) :: hexChar (b % 16) :: acc) [])

/-- UTF-8 encoding of one character (Python `str.encode("utf-8")`). -/
def utf8Char (c : Char) : List Nat :=
  let n := c.toNat
  if n < 128 then [n]
  else if n < 2048 then [192 + n / 64, 128 + n % 64]
  else if n < 65536 then [224 + n / 4096, 128 + (n / 64) % 64, 128 + n % 64]
  else [240 + n / 262144, 128 + (n / 4096) % 64, 128 + (n / 64) % 64, 128 + n % 64]

/-- UTF-8 encoding of a string as a byte list. -/
def encodeUtf8 (s : String) : List Nat := s.data.foldr (fun c acc => utf8Char c ++ acc) []

/-- `hmac.new(secret.encode("utf-8"), payload, hashlib.sha1).hexdigest()`. -/
def hmac_hexdigest (secret : String) (payload : List Nat) : String :=
  bytesToHex (hmacSha1 (encodeUtf8 secret) payload)

/-- `hmac.compare_digest` on two strings: constant-time equality, whose
result is plain string equality. -/
def compare_digest (a b : String) : Bool := a == b

/-- `valid_payload` from `gitbot/deployhook.py`. -/
def valid_payload (secret : String) (payload : List Nat) (signature : String) : Bool :=
  compare_digest (hmac_hexdigest secret payload) signature

/-! ## Effects and the command runner -/

/-- Observable side effects of the engine: subprocess execution, Sentry
error-reporting captures, temporary-directory creation and removal, and
version-bump invocations. -/
inductive Effect
  | exec (args : List String) (cwd : String)
  | captureMessage (msg level : String)
  | captureException
  | mkdtemp (dir : String)
  | removeDir (dir : String)
  | bumpCall (branch sha : String)
deriving DecidableEq, Repr

/-- Failures raised by the command runner: a structured `CommandError` on
a non-zero exit, or a plain `Exception` for a rejected command string. -/
inductive RunError
  | commandError (output : String)
  | exception (msg : String)
deriving DecidableEq, Repr

/-- Result of one subprocess run: exit code and stdout after the
runner's output processing. -/
structure Execution where
  returncode : Nat
  stdout : String
deriving DecidableEq, Repr

/-- A command as passed to the runner: a whitespace-joined string or an
explicit argument list. -/
inductive Cmd
  | str (s : String)
  | list (args : List String)
deriving DecidableEq, Repr

/-- The operating system, as an oracle: maps an argument list and working
directory to the exit code and decoded stdout lines of that subprocess. -/
def ExecOracle : Type := List String → String → Nat × List String

/-- A computation that may raise a `RunError` and records the side
effects it performed, in order. -/
def Proc (α : Type) : Type := Except RunError α × List Effect

def Proc.ret {α : Type} (a : α) : Proc α := (Except.ok a, [])

def Proc.bind {α β : Type} (x : Proc α) (f : α → Proc β) : Proc β :=
  match x.1 with
  | Except.error e => (Except.error e, x.2)
  | Except.ok a => ((f a).1, x.2 ++ (f a).2)

/-- Lift a `(value, effects)` pair into `Proc`. -/
def Proc.lift {α : Type} (r : α × List Effect) : Proc α := (Except.ok r.1, r.2)

/-- Does the (possibly empty) pattern occur as a contiguous sublist? -/
def listHasSub (pat : List Char) : List Char → Bool
  | [] => pat.isEmpty
  | c :: rest => pat.isPrefixOf (c :: rest) || listHasSub pat rest

/-- Python `sub in s`. -/
def pyIn (sub s : String) : Bool := listHasSub sub.data s.data

/-- Python `s.startswith(pre)`. -/
def pyStartsWith (s pre : String) : Bool := pre.data.isPrefixOf s.data

/-- Tokenizer for Python `str.split()`: split on whitespace runs,
accumulating the current token in reverse. -/
def pySplitGo (acc : List Char) : List Char → List String
  | [] => if acc.isEmpty then [] else [String.mk acc.reverse]
  | c :: rest =>
    if c.isWhitespace then
      (if acc.isEmpty then [] else [String.mk acc.reverse]) ++ pySplitGo [] rest
    else pySplitGo (c :: acc) rest

/-- Python `str.split()` on a command string: split on whitespace and
drop empty fields. -/
def pySplit (s : String) : List String := pySplitGo [] s.data

/-- Python `' "' in cmd`: the string contains a space followed by a
double quote. -/
def hasSpaceQuote (s : String) : Bool := pyIn " \x22" s

/-- Fuelled worker for Python `str.replace`: replaces non-overlapping
occurrences of a non-empty pattern left to right.  The fuel is the input
length, which bounds the number of steps. -/
def replaceGo (pat rep : List Char) : Nat → List Char → List Char
  | 0, l => l
  | fuel + 1, l =>
    match l with
    | [] => []
    | c :: rest =>
      if !pat.isEmpty && pat.isPrefixOf l then rep ++ replaceGo pat rep fuel (l.drop pat.length)
      else c :: replaceGo pat rep fuel rest

/-- Python `s.replace(pat, rep)` for the non-empty patterns the engine
uses (an empty pattern is left alone). -/
def pyReplace (s pat rep : String) : String :=
  String.mk (replaceGo pat.data rep.data s.data.length s.data)

/-- Drop leading whitespace characters. -/
def dropLeadingWs : List Char → List Char
  | [] => []
  | c :: rest => if c.isWhitespace then dropLeadingWs rest else c :: rest

/-- Python `s.strip()`. -/
def pyStrip (s : String) : String :=
  String.mk (dropLeadingWs ((dropLeadingWs s.data.reverse).reverse))

/-- Concatenate a list of strings. -/
def joinAll (ls : List String) : String :=
  String.mk (ls.foldr (fun s acc => s.data ++ acc) [])

/-- The runner's output post-processing: decoded stdout lines are
concatenated without separators, then stripped. -/
def procOut (lines : List String) : String := pyStrip (joinAll lines)

/-- Spawn an argument list: the part of the runner past the
command-string checks.  A non-zero exit raises `CommandError` carrying
the processed output. -/
def runArgs (os : ExecOracle) (args : List String) (cwd : String) : Proc Execution :=
  let r := os args cwd
  if r.1 ≠ 0 then (Except.error (RunError.commandError (procOut r.2)), [Effect.exec args cwd])
  else (Except.ok ⟨r.1, procOut r.2⟩, [Effect.exec args cwd])

/-- The function `run` from `lib.py`: a string command is split on
whitespace, and rejected with a plain `Exception` (no subprocess is
spawned) when it contains a space followed by a double quote.  The
webhook module imports its runner from `gitbot/lib.py`, which is not
among the sources; modelled from the spec: the runner captures the
command's output (spec, Command Runner and Revert Workflow step 3), as
`lib.py` does under its `capture` flag. -/
def run (os : ExecOracle) (cmd : Cmd) (cwd : String) : Proc Execution :=
  match cmd with
  | Cmd.str s =>
    if hasSpaceQuote s then
      (Except.error (RunError.exception
        ("The command " ++ s ++ " contains double quotes. Pass a list instead of a string.")), [])
    else runArgs os (pySplit s) cwd
  | Cmd.list args => runArgs os args cwd

/-- The function `update_checkout` from `lib.py`: clone and configure
the merge strategy when the checkout path is absent, then in every call
fetch the default branch, hard-reset to it, and pull. -/
def update_checkout (os : ExecOracle) (checkoutExists : Bool)
    (repo_url checkout : String) : Proc Unit :=
  Proc.bind
    (if checkoutExists then Proc.ret ()
     else
       Proc.bind (run os (Cmd.str ("git clone " ++ repo_url ++ " " ++ checkout)) "/tmp") (fun _ =>
       Proc.bind (run os (Cmd.str "git config pull.rebase false") checkout) (fun _ =>
       Proc.ret ())))
    (fun _ =>
  Proc.bind (run os (Cmd.str "git fetch origin master") checkout) (fun _ =>
  Proc.bind (run os (Cmd.str "git reset --hard origin/master") checkout) (fun _ =>
  Proc.bind (run os (Cmd.str "git pull origin master") checkout) (fun _ =>
  Proc.ret ()))))

/-! ## The webhook service (`gitbot/deployhook.py`) -/

/-- The configuration values from `gitbot/config.py` that the engine
reads. -/
structure Config where
  IS_DEV : Bool
  ENV : String
  DRY_RUN : Bool
  SENTRY_REPO_UPSTREAM : String
  GITBOT_MARKER : String
  GITHUB_WEBHOOK_SECRET : String
  GITBOT_API_SECRET : String
  SENTRY_REPO_URL : String
  GETSENTRY_REPO_URL : String
  SENTRY_CHECKOUT_PATH : String
  GETSENTRY_CHECKOUT_PATH : String
deriving DecidableEq, Repr

/-- The HTTP response assembled by `respond`: a reason, an optional
`revert_sha` field, and the status code. -/
structure Response where
  reason : String
  revert_sha : Option String
  status : Nat
deriving DecidableEq, Repr

/-- The `data` argument of `respond`: a bare string, or the dict with a
`revert_sha` built by the revert workflow. -/
inductive RespData
  | str (s : String)
  | dict (reason revert_sha : String)
deriving DecidableEq, Repr

/-- The function `respond` from `gitbot/deployhook.py`: wraps the reason
into the response body and captures the reason to the error-reporting
sink for every status other than 200. -/
def respond (d : RespData) (status_code : Nat) : Response × List Effect :=
  let reason := match d with | RespData.str s => s | RespData.dict r _ => r
  let rsha := match d with | RespData.str _ => none | RespData.dict _ v => some v
  (⟨reason, rsha, status_code⟩,
    if status_code ≠ 200 then [Effect.captureMessage reason "fatal"] else [])

/-- One side (`head` or `base`) of a pull-request payload. -/
structure PRSide where
  repoFullName : String
  sha : String
  ref : String
deriving DecidableEq, Repr

/-- The `pull_request` object of the webhook payload. -/
structure PullRequestData where
  head : PRSide
  base : PRSide
  merged : Bool
  body : Option String
deriving DecidableEq, Repr

/-- A parsed `pull_request` webhook payload. -/
structure PREvent where
  action : Option String
  repositoryFullName : String
  pull_request : PullRequestData
deriving DecidableEq, Repr

/-- Python substring membership, as `s.find(sub) != -1` computes it. -/
def pyContains (s sub : String) : Bool := pyIn sub s

/-- The function `process_pull_request` from `gitbot/deployhook.py`.  The
version-bump workflow `bump_version` lives in `gitbot/lib.py`, which is
not among the sources, so it is passed in as the function `bump`; its
invocation is recorded as a `bumpCall` effect. -/
def process_pull_request (cfg : Config) (bump : String → String → Bool × String)
    (ev : PREvent) : Response × List Effect :=
  if !(ev.action == some "synchronize" || ev.action == some "opened") then
    respond (RespData.str "Unsupported action for pull_request event.") 200
  else if !cfg.IS_DEV && ev.repositoryFullName != cfg.SENTRY_REPO_UPSTREAM then
    respond (RespData.str "Unknown repository") 200
  else if !cfg.IS_DEV && (ev.pull_request.head.repoFullName != cfg.SENTRY_REPO_UPSTREAM
      || ev.pull_request.base.repoFullName != cfg.SENTRY_REPO_UPSTREAM) then
    respond (RespData.str "Invalid head or base repos.") 200
  else if !cfg.IS_DEV && ev.pull_request.merged then
    respond (RespData.str "Pull request is already merged.") 200
  else if cfg.IS_DEV && cfg.ENV == "staging" then
    respond (RespData.str "We do not support this for staging.") 200
  else if !(pyContains (ev.pull_request.body.getD "") cfg.GITBOT_MARKER) then
    respond (RespData.str "Deploy marker not found.") 200
  else if ev.pull_request.head.sha != "" then
    let r := bump ev.pull_request.head.ref ev.pull_request.head.sha
    let rt := respond (RespData.str r.2) (if r.1 then 200 else 400)
    (rt.1, Effect.bumpCall ev.pull_request.head.ref ev.pull_request.head.sha :: rt.2)
  else respond (RespData.str "Commit not relevant for deploy sync.") 200

/-- The index route of `gitbot/deployhook.py`: signature check first,
then dispatch on the `X-GitHub-Event` header. -/
def index (cfg : Config) (bump : String → String → Bool × String) (payload : List Nat)
    (xHubSignature : Option String) (xGitHubEvent : Option String) (ev : PREvent) :
    Response × List Effect :=
  if cfg.GITHUB_WEBHOOK_SECRET != "" &&
      !valid_payload cfg.GITHUB_WEBHOOK_SECRET payload
        (pyReplace (xHubSignature.getD "") "sha1=" "") then
    respond (RespData.str "Cannot validate payload signature.") 403
  else if xGitHubEvent == some "pull_request" then
    process_pull_request cfg bump ev
  else respond (RespData.str "Unsupported event type.") 200

/-- The body of a request to the revert API endpoint. -/
structure RevertRequest where
  repo : String
  sha : String
  name : String
deriving DecidableEq, Repr

/-- The function `process_git_revert` from `gitbot/deployhook.py`:
synchronize the shared checkout, clone it into a fresh temporary
directory, read the target commit's subject, apply the cross-repository
guard, then revert, commit with a provenance-preserving message, push,
and report the new tip of `origin/master`. -/
def process_git_revert (cfg : Config) (os : ExecOracle) (checkoutExists : Bool)
    (tmp_dir : String) (req : RevertRequest) : Proc Response :=
  Proc.bind (Except.ok (), [Effect.mkdtemp tmp_dir]) (fun _ =>
  let repo_url := if req.repo == "sentry" then cfg.SENTRY_REPO_URL else cfg.GETSENTRY_REPO_URL
  let checkout :=
    if req.repo == "sentry" then cfg.SENTRY_CHECKOUT_PATH else cfg.GETSENTRY_CHECKOUT_PATH
  Proc.bind (update_checkout os checkoutExists repo_url checkout) (fun _ =>
  Proc.bind (run os (Cmd.str ("git clone " ++ checkout ++ " " ++ tmp_dir)) "/tmp") (fun _ =>
  Proc.bind (run os (Cmd.str ("git log -1 --format=\x22%s\x22 " ++ req.sha)) tmp_dir)
    (fun execution =>
  let subject := pyReplace execution.stdout "\x22" ""
  if req.repo == "getsentry" && pyStartsWith subject "getsentry/sentry@" then
    Proc.lift (respond
      (RespData.str (req.sha ++ " cannot be reverted because it needs to be reverted in Sentry"))
      400)
  else
    Proc.bind (run os (Cmd.str ("git revert --no-commit " ++ req.sha)) tmp_dir) (fun _ =>
    Proc.bind (run os (Cmd.list ["git", "commit", "-m", "Revert \x22" ++ subject ++ "\x22",
      "-m", "This reverts commit " ++ req.sha ++ ".",
      "-m", "Co-authored-by: " ++ req.name]) tmp_dir) (fun _ =>
    let push_args := "git push " ++ repo_url ++ (if cfg.DRY_RUN then " --dry-run" else "")
    Proc.bind (run os (Cmd.str push_args) tmp_dir) (fun _ =>
    Proc.bind (run os (Cmd.str "git rev-parse origin/master") tmp_dir) (fun rp =>
    Proc.lift (respond (RespData.dict (req.sha ++ " reverted.") rp.stdout) 200)))))))))

/-- The revert API route of `gitbot/deployhook.py`: signature check,
then `process_git_revert` under a handler that turns a `CommandError`
into a captured "Failed to revert." 400 response; any other exception
propagates out of the route. -/
def revert (cfg : Config) (os : ExecOracle) (checkoutExists : Bool) (tmp_dir : String)
    (payload : List Nat) (xSignature : Option String) (req : RevertRequest) :
    Except RunError Response × List Effect :=
  if cfg.GITBOT_API_SECRET != "" &&
      !valid_payload cfg.GITBOT_API_SECRET payload
        (pyReplace (xSignature.getD "") "sha1=" "") then
    Proc.lift (respond (RespData.str "Cannot validate payload signature.") 403)
  else
    match process_git_revert cfg os checkoutExists tmp_dir req with
    | (Except.ok r, t) => (Except.ok r, t)
    | (Except.error (RunError.commandError _), t) =>
      let rt := respond (RespData.str "Failed to revert.") 400
      (Except.ok rt.1, t ++ Effect.captureException :: rt.2)
    | (Except.error (RunError.exception m), t) => (Except.error (RunError.exception m), t)

/-! ## The version-bump command construction (`gitbot/lib.py`)

Only the tests of these functions (`tests/test_version_bump.py`) are
among the sources, so they are modelled from the spec. -/

/-- The `author` object of a `head_commit` in a push payload. -/
structure CommitAuthor where
  name : String
  email : String
deriving DecidableEq, Repr

/-- Modelled from the spec: `extract_author` from `gitbot/lib.py` (absent
from the sources; exercised by `tests/test_version_bump.py`).  Derives an
author string of the shape display name, space, email in angle brackets,
with embedded double-quote characters stripped from the display name;
yields nothing when no author metadata is available. -/
def extract_author (author : Option CommitAuthor) : Option String :=
  match author with
  | none => none
  | some a => some ((pyReplace a.name "\x22" "") ++ " <" ++ a.email ++ ">")

/-- Modelled from the spec: `bump_command` from `gitbot/lib.py` (absent
from the sources; exercised by `tests/test_version_bump.py`).  Builds the
invocation of the version-bump tool with the head sha as positional
argument and an optional `--author` flag; when no author string is given
the flag and its argument are omitted entirely. -/
def bump_command (bumpPath : String) (ref_sha : String) (author : Option String) :
    List String :=
  [bumpPath, ref_sha] ++ (match author with | none => [] | some a => ["--author", a])

/-! ## Helper lemmas about the runner -/

theorem Proc.bind_ok {α β : Type} (a : α) (t : List Effect) (f : α → Proc β) :
    Proc.bind (Except.ok a, t) f = ((f a).1, t ++ (f a).2) := rfl

theorem Proc.bind_err {α β : Type} (e : RunError) (t : List Effect) (f : α → Proc β) :
    Proc.bind (Except.error e, t) f = (Except.error e, t) := rfl

/-- A successful run of a string command. -/
theorem run_str_ok (os : ExecOracle) (s cwd : String) (hq : hasSpaceQuote s = false)
    (h0 : (os (pySplit s) cwd).1 = 0) :
    run os (Cmd.str s) cwd =
      (Except.ok ⟨0, procOut (os (pySplit s) cwd).2⟩, [Effect.exec (pySplit s) cwd]) := by
  simp [run, hq, runArgs, h0]

/-- A successful run of a list command. -/
theorem run_list_ok (os : ExecOracle) (args : List String) (cwd : String)
    (h0 : (os args cwd).1 = 0) :
    run os (Cmd.list args) cwd =
      (Except.ok ⟨0, procOut (os args cwd).2⟩, [Effect.exec args cwd]) := by
  simp [run, runArgs, h0]

/-- A successful synchronization: the exact command sequence. -/
theorem update_checkout_ok (os : ExecOracle) (checkoutExists : Bool)
    (repo_url checkout : String)
    (hq : hasSpaceQuote ("git clone " ++ repo_url ++ " " ++ checkout) = false)
    (hclone : (os (pySplit ("git clone " ++ repo_url ++ " " ++ checkout)) "/tmp").1 = 0)
    (hconfig : (os (pySplit "git config pull.rebase false") checkout).1 = 0)
    (hfetch : (os (pySplit "git fetch origin master") checkout).1 = 0)
    (hreset : (os (pySplit "git reset --hard origin/master") checkout).1 = 0)
    (hpull : (os (pySplit "git pull origin master") checkout).1 = 0) :
    update_checkout os checkoutExists repo_url checkout =
      (Except.ok (),
        (if checkoutExists then [] else
          [Effect.exec (pySplit ("git clone " ++ repo_url ++ " " ++ checkout)) "/tmp",
           Effect.exec (pySplit "git config pull.rebase false") checkout]) ++
        [Effect.exec (pySplit "git fetch origin master") checkout,
         Effect.exec (pySplit "git reset --hard origin/master") checkout,
         Effect.exec (pySplit "git pull origin master") checkout]) := by
  cases checkoutExists <;>
    simp [update_checkout, run_str_ok os _ _ hq hclone,
      run_str_ok os "git config pull.rebase false" checkout (by decide) hconfig,
      run_str_ok os "git fetch origin master" checkout (by decide) hfetch,
      run_str_ok os "git reset --hard origin/master" checkout (by decide) hreset,
      run_str_ok os "git pull origin master" checkout (by decide) hpull,
      Proc.bind_ok, Proc.ret]

/-! ## Claim theorems -/

/-- C1: signature verification accepts exactly the hex-encoded HMAC-SHA1
of the payload keyed by the secret: the digest itself is accepted, and
every other signature is rejected. -/
theorem valid_payload_accepts_exactly_digest (S : String) (P : List Nat) :
    valid_payload S P (hmac_hexdigest S P) = true ∧
      ∀ sig : String, sig ≠ hmac_hexdigest S P → valid_payload S P sig = false := by
  constructor
  · simp [valid_payload, compare_digest]
  · intro sig h
    simp only [valid_payload, compare_digest, beq_eq_false_iff_ne, ne_eq]
    exact fun hh => h hh.symm

/-- Witness for C1 at a concrete secret, payload and wrong signature. -/
theorem valid_payload_accepts_exactly_digest_witness :
    valid_payload "secret" [104, 105] (hmac_hexdigest "secret" [104, 105]) = true ∧
      valid_payload "secret" [104, 105] "deadbeef" = false := by
  refine ⟨(valid_payload_accepts_exactly_digest "secret" [104, 105]).1, ?_⟩
  exact (valid_payload_accepts_exactly_digest "secret" [104, 105]).2 "deadbeef" (by decide)

/-- C6: in non-trusted mode, a pull-request event from the canonical
upstream repository with a supported action that is already merged is
ignored with reason "already merged", for every body — in particular even
when the deploy marker is present — because the merged check comes before
the marker check. -/
theorem merged_pr_ignored_before_marker (cfg : Config)
    (bump : String → String → Bool × String) (ev : PREvent)
    (hdev : cfg.IS_DEV = false)
    (hact : ev.action = some "opened" ∨ ev.action = some "synchronize")
    (hrepo : ev.repositoryFullName = cfg.SENTRY_REPO_UPSTREAM)
    (hhead : ev.pull_request.head.repoFullName = cfg.SENTRY_REPO_UPSTREAM)
    (hbase : ev.pull_request.base.repoFullName = cfg.SENTRY_REPO_UPSTREAM)
    (hmerged : ev.pull_request.merged = true) :
    process_pull_request cfg bump ev =
      (⟨"Pull request is already merged.", none, 200⟩, []) := by
  rcases hact with h | h <;>
    simp [process_pull_request, h, hdev, hrepo, hhead, hbase, hmerged, respond]

/-- Witness for C6 at a concrete event whose body holds the marker. -/
theorem merged_pr_ignored_before_marker_witness :
    process_pull_request
      ⟨false, "production", true, "getsentry/sentry", "#sync-getsentry", "s", "s",
        "u1", "u2", "p1", "p2"⟩
      (fun _ _ => (true, "bumped"))
      ⟨some "opened", "getsentry/sentry",
        ⟨⟨"getsentry/sentry", "abc123", "main"⟩, ⟨"getsentry/sentry", "def", "master"⟩,
          true, some "please #sync-getsentry now"⟩⟩ =
      (⟨"Pull request is already merged.", none, 200⟩, []) :=
  merged_pr_ignored_before_marker _ _ _ rfl (Or.inl rfl) rfl rfl rfl rfl

/-- Case analysis of the pull-request handler's status: every outcome is
a 200 except a version bump reporting failure, which is a 400. -/
theorem pr_status_cases (cfg : Config) (bump : String → String → Bool × String)
    (ev : PREvent) :
    (process_pull_request cfg bump ev).1.status = 200 ∨
      ((process_pull_request cfg bump ev).1.status = 400 ∧
        (bump ev.pull_request.head.ref ev.pull_request.head.sha).1 = false ∧
        Effect.bumpCall ev.pull_request.head.ref ev.pull_request.head.sha ∈
          (process_pull_request cfg bump ev).2) := by
  unfold process_pull_request
  split_ifs with h1 h2 h3 h4 h5 h6 h7
  · exact Or.inl rfl
  · exact Or.inl rfl
  · exact Or.inl rfl
  · exact Or.inl rfl
  · exact Or.inl rfl
  · exact Or.inl rfl
  · by_cases hb : (bump ev.pull_request.head.ref ev.pull_request.head.sha).1
    · exact Or.inl (by simp [respond, hb])
    · refine Or.inr ⟨by simp [respond, hb], by simpa using hb, ?_⟩
      simp [respond, hb]
  · exact Or.inl rfl

/-- C7: under a passing (or disabled) signature check, the webhook
endpoint answers 200 on every path except a version-bump execution that
reports no update, which is answered with a 400. -/
theorem non_auth_status_200_except_failed_bump (cfg : Config)
    (bump : String → String → Bool × String) (payload : List Nat)
    (xHubSignature xGitHubEvent : Option String) (ev : PREvent)
    (hauth : cfg.GITHUB_WEBHOOK_SECRET = "" ∨
      valid_payload cfg.GITHUB_WEBHOOK_SECRET payload
        (pyReplace (xHubSignature.getD "") "sha1=" "") = true) :
    (index cfg bump payload xHubSignature xGitHubEvent ev).1.status = 200 ∨
      ((index cfg bump payload xHubSignature xGitHubEvent ev).1.status = 400 ∧
        (bump ev.pull_request.head.ref ev.pull_request.head.sha).1 = false ∧
        Effect.bumpCall ev.pull_request.head.ref ev.pull_request.head.sha ∈
          (index cfg bump payload xHubSignature xGitHubEvent ev).2) := by
  have hcond : (cfg.GITHUB_WEBHOOK_SECRET != "" &&
      !valid_payload cfg.GITHUB_WEBHOOK_SECRET payload
        (pyReplace (xHubSignature.getD "") "sha1=" "")) = false := by
    rcases hauth with h | h <;> simp [h]
  unfold index
  rw [hcond]
  simp only [Bool.false_eq_true, if_false]
  by_cases he : (xGitHubEvent == some "pull_request") = true
  · rw [if_pos he]
    exact pr_status_cases cfg bump ev
  · rw [if_neg he]
    exact Or.inl rfl

/-- Witness for C7 with the signature check disabled. -/
theorem non_auth_status_200_except_failed_bump_witness :
    (index ⟨false, "production", true, "getsentry/sentry", "#sync-getsentry", "", "s",
        "u1", "u2", "p1", "p2"⟩
      (fun _ _ => (true, "bumped")) [] none (some "push")
      ⟨some "opened", "getsentry/sentry",
        ⟨⟨"getsentry/sentry", "abc", "main"⟩, ⟨"getsentry/sentry", "d", "m"⟩,
          false, none⟩⟩).1.status = 200 ∨
      ((index ⟨false, "production", true, "getsentry/sentry", "#sync-getsentry", "", "s",
        "u1", "u2", "p1", "p2"⟩
      (fun _ _ => (true, "bumped")) [] none (some "push")
      ⟨some "opened", "getsentry/sentry",
        ⟨⟨"getsentry/sentry", "abc", "main"⟩, ⟨"getsentry/sentry", "d", "m"⟩,
          false, none⟩⟩).1.status = 400 ∧
        ((fun (_ _ : String) => (true, "bumped")) "main" "abc").1 = false ∧
        Effect.bumpCall "main" "abc" ∈
          (index ⟨false, "production", true, "getsentry/sentry", "#sync-getsentry", "", "s",
        "u1", "u2", "p1", "p2"⟩
      (fun _ _ => (true, "bumped")) [] none (some "push")
      ⟨some "opened", "getsentry/sentry",
        ⟨⟨"getsentry/sentry", "abc", "main"⟩, ⟨"getsentry/sentry", "d", "m"⟩,
          false, none⟩⟩).2) :=
  non_auth_status_200_except_failed_bump _ _ _ _ _ _ (Or.inl rfl)

/-- C8: when the checkout is absent the synchronizer first clones from
the remote URL and configures the non-rebase merge strategy, and in
every call — whatever the prior state — it then runs exactly the
sequence fetch of the default branch from origin, hard reset of the
local branch to the fetched ref, then pull, in that order. -/
theorem checkout_sync_command_sequence (os : ExecOracle) (checkoutExists : Bool)
    (repo_url checkout : String)
    (hq : hasSpaceQuote ("git clone " ++ repo_url ++ " " ++ checkout) = false)
    (hclone : (os (pySplit ("git clone " ++ repo_url ++ " " ++ checkout)) "/tmp").1 = 0)
    (hconfig : (os (pySplit "git config pull.rebase false") checkout).1 = 0)
    (hfetch : (os (pySplit "git fetch origin master") checkout).1 = 0)
    (hreset : (os (pySplit "git reset --hard origin/master") checkout).1 = 0)
    (hpull : (os (pySplit "git pull origin master") checkout).1 = 0) :
    update_checkout os checkoutExists repo_url checkout =
      (Except.ok (),
        (if checkoutExists then [] else
          [Effect.exec (pySplit ("git clone " ++ repo_url ++ " " ++ checkout)) "/tmp",
           Effect.exec (pySplit "git config pull.rebase false") checkout]) ++
        [Effect.exec (pySplit "git fetch origin master") checkout,
         Effect.exec (pySplit "git reset --hard origin/master") checkout,
         Effect.exec (pySplit "git pull origin master") checkout]) :=
  update_checkout_ok os checkoutExists repo_url checkout hq hclone hconfig hfetch hreset hpull

/-- Witness for C8: a fresh checkout under an all-succeeding system. -/
theorem checkout_sync_command_sequence_witness :
    hasSpaceQuote ("git clone " ++ "file:///repo" ++ " " ++ "/tmp/co") = false ∧
    update_checkout (fun _ _ => (0, [])) false "file:///repo" "/tmp/co" =
      (Except.ok (),
        [Effect.exec ["git", "clone", "file:///repo", "/tmp/co"] "/tmp",
         Effect.exec ["git", "config", "pull.rebase", "false"] "/tmp/co",
         Effect.exec ["git", "fetch", "origin", "master"] "/tmp/co",
         Effect.exec ["git", "reset", "--hard", "origin/master"] "/tmp/co",
         Effect.exec ["git", "pull", "origin", "master"] "/tmp/co"]) := by
  refine ⟨by decide, ?_⟩
  rw [checkout_sync_command_sequence (fun _ _ => (0, [])) false "file:///repo" "/tmp/co"
    (by decide) rfl rfl rfl rfl rfl]
  rfl

/-! ## No cleanup of the temporary clone (C5) -/

/-- The trace contains no directory-removal effect. -/
def noRemove (t : List Effect) : Prop := ∀ d : String, Effect.removeDir d ∉ t

theorem noRemove_bind {α β : Type} {x : Proc α} {f : α → Proc β}
    (hx : noRemove x.2) (hf : ∀ a, noRemove (f a).2) : noRemove (Proc.bind x f).2 := by
  rcases x with ⟨e, t⟩
  cases e with
  | error err => exact hx
  | ok a =>
    intro d hd
    rcases List.mem_append.mp hd with h | h
    · exact hx d h
    · exact hf a d h

theorem noRemove_runArgs (os : ExecOracle) (args : List String) (cwd : String) :
    noRemove (runArgs os args cwd).2 := by
  intro d
  simp only [runArgs]
  split <;> simp

theorem noRemove_run (os : ExecOracle) (cmd : Cmd) (cwd : String) :
    noRemove (run os cmd cwd).2 := by
  cases cmd with
  | str s =>
    simp only [run]
    split
    · intro d; simp
    · exact noRemove_runArgs os (pySplit s) cwd
  | list args => exact noRemove_runArgs os args cwd

theorem noRemove_update_checkout (os : ExecOracle) (checkoutExists : Bool)
    (repo_url checkout : String) :
    noRemove (update_checkout os checkoutExists repo_url checkout).2 := by
  unfold update_checkout
  apply noRemove_bind
  · cases checkoutExists
    · apply noRemove_bind (noRemove_run _ _ _)
      intro _
      apply noRemove_bind (noRemove_run _ _ _)
      intro _
      intro d
      simp [Proc.ret]
    · intro d
      simp [Proc.ret]
  · intro _
    apply noRemove_bind (noRemove_run _ _ _)
    intro _
    apply noRemove_bind (noRemove_run _ _ _)
    intro _
    apply noRemove_bind (noRemove_run _ _ _)
    intro _
    intro d
    simp [Proc.ret]

theorem noRemove_respond (d : RespData) (status : Nat) :
    noRemove (respond d status).2 := by
  intro x
  unfold respond
  split <;> simp

theorem noRemove_lift {α : Type} (r : α × List Effect) (h : noRemove r.2) :
    noRemove (Proc.lift r).2 := h

theorem noRemove_process_git_revert (cfg : Config) (os : ExecOracle)
    (checkoutExists : Bool) (tmp_dir : String) (req : RevertRequest) :
    noRemove (process_git_revert cfg os checkoutExists tmp_dir req).2 := by
  unfold process_git_revert
  apply noRemove_bind
  · intro d; simp
  intro u1
  apply noRemove_bind (noRemove_update_checkout _ _ _ _)
  intro u2
  apply noRemove_bind (noRemove_run _ _ _)
  intro u3
  apply noRemove_bind (noRemove_run _ _ _)
  intro execution
  dsimp only
  by_cases hg : (req.repo == "getsentry" &&
      pyStartsWith (pyReplace execution.stdout "\x22" "") "getsentry/sentry@") = true
  · rw [if_pos hg]
    exact noRemove_lift _ (noRemove_respond _ _)
  · rw [if_neg hg]
    apply noRemove_bind (noRemove_run _ _ _)
    intro u4
    apply noRemove_bind (noRemove_run _ _ _)
    intro u5
    apply noRemove_bind (noRemove_run _ _ _)
    intro u6
    apply noRemove_bind (noRemove_run _ _ _)
    intro rp
    exact noRemove_lift _ (noRemove_respond _ _)

/-- C5 (refuted; the code never cleans up): on every exit path of the
revert endpoint — authentication rejection, domain-guard rejection,
command failure, uncaught exception, or success — the recorded effects
contain the creation of the temporary clone directory where the workflow
reaches it, but never any removal of a directory.  The temporary
directory is therefore not deleted before the workflow returns. -/
theorem revert_never_removes_tmp_dir (cfg : Config) (os : ExecOracle)
    (checkoutExists : Bool) (tmp_dir : String) (payload : List Nat)
    (xSignature : Option String) (req : RevertRequest) :
    ∀ d : String, Effect.removeDir d ∉
      (revert cfg os checkoutExists tmp_dir payload xSignature req).2 := by
  unfold revert
  split
  · exact noRemove_lift _ (noRemove_respond _ _)
  · split
    · next r t heq =>
      have h := noRemove_process_git_revert cfg os checkoutExists tmp_dir req
      rw [heq] at h
      exact h
    · next t heq =>
      intro d hd
      have h := noRemove_process_git_revert cfg os checkoutExists tmp_dir req
      rw [heq] at h
      rcases List.mem_append.mp hd with hm | hm
      · exact h d hm
      · simp [respond] at hm
    · next m t heq =>
      have h := noRemove_process_git_revert cfg os checkoutExists tmp_dir req
      rw [heq] at h
      exact h

/-- C2 (amended): with a non-empty webhook secret, a request whose
signature fails verification is answered with exactly the 403
authentication response, no subprocess is executed and no version bump
invoked — but the failure reason IS captured to the error-reporting sink,
because `respond` captures every non-200 response. -/
theorem auth_failure_rejected_and_captured (cfg : Config)
    (bump : String → String → Bool × String) (payload : List Nat)
    (xHubSignature xGitHubEvent : Option String) (ev : PREvent)
    (hsec : cfg.GITHUB_WEBHOOK_SECRET ≠ "")
    (hbad : valid_payload cfg.GITHUB_WEBHOOK_SECRET payload
      (pyReplace (xHubSignature.getD "") "sha1=" "") = false) :
    index cfg bump payload xHubSignature xGitHubEvent ev =
      (⟨"Cannot validate payload signature.", none, 403⟩,
        [Effect.captureMessage "Cannot validate payload signature." "fatal"]) := by
  have hcond : (cfg.GITHUB_WEBHOOK_SECRET != "" &&
      !valid_payload cfg.GITHUB_WEBHOOK_SECRET payload
        (pyReplace (xHubSignature.getD "") "sha1=" "")) = true := by
    simp [hsec, hbad]
  unfold index
  rw [hcond]
  simp [respond]

/-- Witness for the amended C2 at a concrete failing request. -/
theorem auth_failure_rejected_and_captured_witness :
    "s" ≠ "" ∧
    index ⟨false, "production", true, "getsentry/sentry", "#sync-getsentry", "s", "s",
        "u1", "u2", "p1", "p2"⟩
      (fun _ _ => (true, "bumped")) [] (some "sha1=x") none
      ⟨some "opened", "getsentry/sentry",
        ⟨⟨"getsentry/sentry", "abc", "main"⟩, ⟨"getsentry/sentry", "d", "m"⟩,
          false, none⟩⟩ =
      (⟨"Cannot validate payload signature.", none, 403⟩,
        [Effect.captureMessage "Cannot validate payload signature." "fatal"]) :=
  ⟨by decide, auth_failure_rejected_and_captured _ _ _ _ _ _ (by decide) (by decide)⟩

/-- Counterexample to C2 as stated: at a concrete request with a wrong
signature, the endpoint does answer 403, but the authentication failure
IS captured to the error-reporting sink, against the claim that no
capture happens. -/
theorem auth_failure_not_captured_counterexample :
    (index ⟨false, "production", true, "getsentry/sentry", "#sync-getsentry", "s", "s",
        "u1", "u2", "p1", "p2"⟩
      (fun _ _ => (true, "bumped")) [] (some "sha1=y") none
      ⟨some "opened", "getsentry/sentry",
        ⟨⟨"getsentry/sentry", "abc", "main"⟩, ⟨"getsentry/sentry", "d", "m"⟩,
          false, none⟩⟩).1.status = 403 ∧
      Effect.captureMessage "Cannot validate payload signature." "fatal" ∈
        (index ⟨false, "production", true, "getsentry/sentry", "#sync-getsentry", "s", "s",
          "u1", "u2", "p1", "p2"⟩
        (fun _ _ => (true, "bumped")) [] (some "sha1=y") none
        ⟨some "opened", "getsentry/sentry",
          ⟨⟨"getsentry/sentry", "abc", "main"⟩, ⟨"getsentry/sentry", "d", "m"⟩,
            false, none⟩⟩).2 := by
  constructor
  · decide
  · decide

/-- C9: the derived author string is the display name with embedded
double quotes stripped, followed by the email in angle brackets; with no
author metadata the bump command is just the tool path and the head sha,
with no `--author` flag.  The last two conjuncts check the concrete
expectations of `tests/test_version_bump.py`. -/
theorem bump_author_derivation (n e p s : String) :
    extract_author (some ⟨n, e⟩) = some ((pyReplace n "\x22" "") ++ " <" ++ e ++ ">") ∧
    bump_command p s none = [p, s] ∧
    extract_author (some ⟨"Aniket Das \x22Tekky",
        "85517732+AniketDas-Tekky@users.noreply.github.com"⟩) =
      some "Aniket Das Tekky <85517732+AniketDas-Tekky@users.noreply.github.com>" ∧
    bump_command "tests/bin/bump-sentry" "foo"
      (extract_author (some ⟨"Aniket Das \x22Tekky",
        "85517732+AniketDas-Tekky@users.noreply.github.com"⟩)) =
      ["tests/bin/bump-sentry", "foo", "--author",
        "Aniket Das Tekky <85517732+AniketDas-Tekky@users.noreply.github.com>"] :=
  ⟨rfl, rfl, by decide, by decide⟩

/-- C3: a revert request naming the downstream repository (getsentry)
whose target commit's subject begins with the upstream-bump marker
"getsentry/sentry@" is refused with an explanatory 400 response, and no
git revert, commit or push command is executed: the subprocesses run are
exactly the synchronization commands, the clone and the log query. -/
theorem revert_cross_repo_guard (cfg : Config) (os : ExecOracle)
    (checkoutExists : Bool) (tmp_dir : String) (req : RevertRequest)
    (hrepo : req.repo = "getsentry")
    (hq1 : hasSpaceQuote
      ("git clone " ++ cfg.GETSENTRY_REPO_URL ++ " " ++ cfg.GETSENTRY_CHECKOUT_PATH) = false)
    (h1 : (os (pySplit ("git clone " ++ cfg.GETSENTRY_REPO_URL ++ " " ++
      cfg.GETSENTRY_CHECKOUT_PATH)) "/tmp").1 = 0)
    (h2 : (os (pySplit "git config pull.rebase false") cfg.GETSENTRY_CHECKOUT_PATH).1 = 0)
    (h3 : (os (pySplit "git fetch origin master") cfg.GETSENTRY_CHECKOUT_PATH).1 = 0)
    (h4 : (os (pySplit "git reset --hard origin/master") cfg.GETSENTRY_CHECKOUT_PATH).1 = 0)
    (h5 : (os (pySplit "git pull origin master") cfg.GETSENTRY_CHECKOUT_PATH).1 = 0)
    (hq2 : hasSpaceQuote ("git clone " ++ cfg.GETSENTRY_CHECKOUT_PATH ++ " " ++ tmp_dir) = false)
    (h6 : (os (pySplit ("git clone " ++ cfg.GETSENTRY_CHECKOUT_PATH ++ " " ++ tmp_dir)) "/tmp").1 = 0)
    (hq3 : hasSpaceQuote ("git log -1 --format=\x22%s\x22 " ++ req.sha) = false)
    (h7 : (os (pySplit ("git log -1 --format=\x22%s\x22 " ++ req.sha)) tmp_dir).1 = 0)
    (hsub : pyStartsWith (pyReplace (procOut
        (os (pySplit ("git log -1 --format=\x22%s\x22 " ++ req.sha)) tmp_dir).2) "\x22" "")
      "getsentry/sentry@" = true) :
    process_git_revert cfg os checkoutExists tmp_dir req =
      (Except.ok ⟨req.sha ++ " cannot be reverted because it needs to be reverted in Sentry",
          none, 400⟩,
        Effect.mkdtemp tmp_dir ::
          ((if checkoutExists then [] else
            [Effect.exec (pySplit ("git clone " ++ cfg.GETSENTRY_REPO_URL ++ " " ++
               cfg.GETSENTRY_CHECKOUT_PATH)) "/tmp",
             Effect.exec (pySplit "git config pull.rebase false") cfg.GETSENTRY_CHECKOUT_PATH]) ++
          [Effect.exec (pySplit "git fetch origin master") cfg.GETSENTRY_CHECKOUT_PATH,
           Effect.exec (pySplit "git reset --hard origin/master") cfg.GETSENTRY_CHECKOUT_PATH,
           Effect.exec (pySplit "git pull origin master") cfg.GETSENTRY_CHECKOUT_PATH,
           Effect.exec (pySplit ("git clone " ++ cfg.GETSENTRY_CHECKOUT_PATH ++ " " ++ tmp_dir))
             "/tmp",
           Effect.exec (pySplit ("git log -1 --format=\x22%s\x22 " ++ req.sha)) tmp_dir,
           Effect.captureMessage
             (req.sha ++ " cannot be reverted because it needs to be reverted in Sentry")
             "fatal"])) := by
  have hr1 : (req.repo == "sentry") = false := by rw [hrepo]; decide
  have hr2 : (req.repo == "getsentry") = true := by rw [hrepo]; decide
  simp [process_git_revert, hr1, hr2,
    update_checkout_ok os checkoutExists cfg.GETSENTRY_REPO_URL cfg.GETSENTRY_CHECKOUT_PATH
      hq1 h1 h2 h3 h4 h5,
    run_str_ok os ("git clone " ++ cfg.GETSENTRY_CHECKOUT_PATH ++ " " ++ tmp_dir) "/tmp" hq2 h6,
    run_str_ok os ("git log -1 --format=\x22%s\x22 " ++ req.sha) tmp_dir hq3 h7,
    Proc.bind_ok, Proc.lift, respond, hsub]

/-- C4: a revert request that passes the cross-repository guard and whose
git commands all succeed produces a commit invocation whose message is
the subject Revert "original subject", a body paragraph
"This reverts commit sha.", and a trailing co-author line naming the
requester; the outcome carries a revert_sha equal to the default-branch
tip resolved by the rev-parse run after the push, and status 200. -/
theorem revert_happy_path (cfg : Config) (os : ExecOracle)
    (checkoutExists : Bool) (tmp_dir : String) (req : RevertRequest)
    (repo_url checkout : String)
    (hurl : (if req.repo == "sentry" then cfg.SENTRY_REPO_URL
      else cfg.GETSENTRY_REPO_URL) = repo_url)
    (hco : (if req.repo == "sentry" then cfg.SENTRY_CHECKOUT_PATH
      else cfg.GETSENTRY_CHECKOUT_PATH) = checkout)
    (hq1 : hasSpaceQuote ("git clone " ++ repo_url ++ " " ++ checkout) = false)
    (h1 : (os (pySplit ("git clone " ++ repo_url ++ " " ++ checkout)) "/tmp").1 = 0)
    (h2 : (os (pySplit "git config pull.rebase false") checkout).1 = 0)
    (h3 : (os (pySplit "git fetch origin master") checkout).1 = 0)
    (h4 : (os (pySplit "git reset --hard origin/master") checkout).1 = 0)
    (h5 : (os (pySplit "git pull origin master") checkout).1 = 0)
    (hq2 : hasSpaceQuote ("git clone " ++ checkout ++ " " ++ tmp_dir) = false)
    (h6 : (os (pySplit ("git clone " ++ checkout ++ " " ++ tmp_dir)) "/tmp").1 = 0)
    (hq3 : hasSpaceQuote ("git log -1 --format=\x22%s\x22 " ++ req.sha) = false)
    (h7 : (os (pySplit ("git log -1 --format=\x22%s\x22 " ++ req.sha)) tmp_dir).1 = 0)
    (hguard : ¬(req.repo = "getsentry" ∧ pyStartsWith (pyReplace (procOut
        (os (pySplit ("git log -1 --format=\x22%s\x22 " ++ req.sha)) tmp_dir).2) "\x22" "")
      "getsentry/sentry@" = true))
    (hq4 : hasSpaceQuote ("git revert --no-commit " ++ req.sha) = false)
    (h8 : (os (pySplit ("git revert --no-commit " ++ req.sha)) tmp_dir).1 = 0)
    (h9 : (os ["git", "commit", "-m",
      "Revert \x22" ++ pyReplace (procOut
        (os (pySplit ("git log -1 --format=\x22%s\x22 " ++ req.sha)) tmp_dir).2) "\x22" "" ++
        "\x22",
      "-m", "This reverts commit " ++ req.sha ++ ".",
      "-m", "Co-authored-by: " ++ req.name] tmp_dir).1 = 0)
    (hq5 : hasSpaceQuote ("git push " ++ repo_url ++
      (if cfg.DRY_RUN then " --dry-run" else "")) = false)
    (h10 : (os (pySplit ("git push " ++ repo_url ++
      (if cfg.DRY_RUN then " --dry-run" else ""))) tmp_dir).1 = 0)
    (h11 : (os (pySplit "git rev-parse origin/master") tmp_dir).1 = 0) :
    process_git_revert cfg os checkoutExists tmp_dir req =
      (Except.ok ⟨req.sha ++ " reverted.",
          some (procOut (os (pySplit "git rev-parse origin/master") tmp_dir).2), 200⟩,
        Effect.mkdtemp tmp_dir ::
          ((if checkoutExists then [] else
            [Effect.exec (pySplit ("git clone " ++ repo_url ++ " " ++ checkout)) "/tmp",
             Effect.exec (pySplit "git config pull.rebase false") checkout]) ++
          [Effect.exec (pySplit "git fetch origin master") checkout,
           Effect.exec (pySplit "git reset --hard origin/master") checkout,
           Effect.exec (pySplit "git pull origin master") checkout,
           Effect.exec (pySplit ("git clone " ++ checkout ++ " " ++ tmp_dir)) "/tmp",
           Effect.exec (pySplit ("git log -1 --format=\x22%s\x22 " ++ req.sha)) tmp_dir,
           Effect.exec (pySplit ("git revert --no-commit " ++ req.sha)) tmp_dir,
           Effect.exec ["git", "commit", "-m",
             "Revert \x22" ++ pyReplace (procOut
               (os (pySplit ("git log -1 --format=\x22%s\x22 " ++ req.sha)) tmp_dir).2)
               "\x22" "" ++ "\x22",
             "-m", "This reverts commit " ++ req.sha ++ ".",
             "-m", "Co-authored-by: " ++ req.name] tmp_dir,
           Effect.exec (pySplit ("git push " ++ repo_url ++
             (if cfg.DRY_RUN then " --dry-run" else ""))) tmp_dir,
           Effect.exec (pySplit "git rev-parse origin/master") tmp_dir])) := by
  simp only [process_git_revert]
  rw [hurl, hco]
  simp [update_checkout_ok os checkoutExists repo_url checkout hq1 h1 h2 h3 h4 h5,
    run_str_ok os ("git clone " ++ checkout ++ " " ++ tmp_dir) "/tmp" hq2 h6,
    run_str_ok os ("git log -1 --format=\x22%s\x22 " ++ req.sha) tmp_dir hq3 h7,
    run_str_ok os ("git revert --no-commit " ++ req.sha) tmp_dir hq4 h8,
    run_list_ok os _ tmp_dir h9,
    run_str_ok os ("git push " ++ repo_url ++
      (if cfg.DRY_RUN then " --dry-run" else "")) tmp_dir hq5 h10,
    run_str_ok os "git rev-parse origin/master" tmp_dir (by decide) h11,
    Proc.bind_ok, Proc.lift, respond, hguard]

/-- Witness for C3: a concrete downstream revert request whose commit
subject carries the upstream-bump marker. -/
theorem revert_cross_repo_guard_witness :
    (⟨"getsentry", "abc123", "Jane Doe"⟩ : RevertRequest).repo = "getsentry" ∧
    process_git_revert
      ⟨false, "production", true, "getsentry/sentry", "#sync-getsentry", "s", "s",
        "file:///sentry", "file:///getsentry", "/tmp/sentry", "/tmp/getsentry"⟩
      (fun _ _ => (0, ["\x22getsentry/sentry@abc123\x22"])) true "/tmp/rv"
      ⟨"getsentry", "abc123", "Jane Doe"⟩ =
      (Except.ok ⟨"abc123 cannot be reverted because it needs to be reverted in Sentry",
          none, 400⟩,
        [Effect.mkdtemp "/tmp/rv",
         Effect.exec ["git", "fetch", "origin", "master"] "/tmp/getsentry",
         Effect.exec ["git", "reset", "--hard", "origin/master"] "/tmp/getsentry",
         Effect.exec ["git", "pull", "origin", "master"] "/tmp/getsentry",
         Effect.exec ["git", "clone", "/tmp/getsentry", "/tmp/rv"] "/tmp",
         Effect.exec ["git", "log", "-1", "--format=\x22%s\x22", "abc123"] "/tmp/rv",
         Effect.captureMessage
           "abc123 cannot be reverted because it needs to be reverted in Sentry" "fatal"]) := by
  refine ⟨rfl, ?_⟩
  rw [revert_cross_repo_guard
    ⟨false, "production", true, "getsentry/sentry", "#sync-getsentry", "s", "s",
      "file:///sentry", "file:///getsentry", "/tmp/sentry", "/tmp/getsentry"⟩
    (fun _ _ => (0, ["\x22getsentry/sentry@abc123\x22"])) true "/tmp/rv"
    ⟨"getsentry", "abc123", "Jane Doe"⟩
    rfl (by decide) rfl rfl rfl rfl rfl (by decide) rfl (by decide) rfl (by decide)]
  rfl

/-- Witness for C4: a concrete successful revert of a commit in the
primary repository, requested by "Jane Doe", under dry-run pushes. -/
theorem revert_happy_path_witness :
    ¬((⟨"sentry", "abc123", "Jane Doe"⟩ : RevertRequest).repo = "getsentry" ∧
      pyStartsWith (pyReplace (procOut ((fun (_ : List String) (_ : String) =>
        ((0 : Nat), ["fix: bug (#1)"])) (pySplit "git log -1 --format=\x22%s\x22 abc123")
        "/tmp/rv").2) "\x22" "") "getsentry/sentry@" = true) ∧
    process_git_revert
      ⟨false, "production", true, "getsentry/sentry", "#sync-getsentry", "s", "s",
        "file:///sentry", "file:///getsentry", "/tmp/sentry", "/tmp/getsentry"⟩
      (fun _ _ => (0, ["fix: bug (#1)"])) true "/tmp/rv"
      ⟨"sentry", "abc123", "Jane Doe"⟩ =
      (Except.ok ⟨"abc123 reverted.", some "fix: bug (#1)", 200⟩,
        [Effect.mkdtemp "/tmp/rv",
         Effect.exec ["git", "fetch", "origin", "master"] "/tmp/sentry",
         Effect.exec ["git", "reset", "--hard", "origin/master"] "/tmp/sentry",
         Effect.exec ["git", "pull", "origin", "master"] "/tmp/sentry",
         Effect.exec ["git", "clone", "/tmp/sentry", "/tmp/rv"] "/tmp",
         Effect.exec ["git", "log", "-1", "--format=\x22%s\x22", "abc123"] "/tmp/rv",
         Effect.exec ["git", "revert", "--no-commit", "abc123"] "/tmp/rv",
         Effect.exec ["git", "commit", "-m", "Revert \x22fix: bug (#1)\x22",
           "-m", "This reverts commit abc123.", "-m", "Co-authored-by: Jane Doe"] "/tmp/rv",
         Effect.exec ["git", "push", "file:///sentry", "--dry-run"] "/tmp/rv",
         Effect.exec ["git", "rev-parse", "origin/master"] "/tmp/rv"]) := by
  refine ⟨by decide, ?_⟩
  rw [revert_happy_path
    ⟨false, "production", true, "getsentry/sentry", "#sync-getsentry", "s", "s",
      "file:///sentry", "file:///getsentry", "/tmp/sentry", "/tmp/getsentry"⟩
    (fun _ _ => (0, ["fix: bug (#1)"])) true "/tmp/rv"
    ⟨"sentry", "abc123", "Jane Doe"⟩ "file:///sentry" "/tmp/sentry"
    rfl rfl (by decide) rfl rfl rfl rfl rfl (by decide) rfl (by decide) rfl (by decide)
    (by decide) rfl rfl (by decide) rfl rfl]
  rfl

/-- C10: a string command containing a space followed by a double quote
makes the runner raise a plain exception with no subprocess executed
(the effect trace of that run is empty); and when the revert workflow
ends in such a plain exception, the API boundary's CommandError handler
does not catch it: the revert route propagates the exception instead of
returning the "Failed to revert." response. -/
theorem run_space_quote_exception_uncaught
    (os : ExecOracle) (s cwd : String) (hq : hasSpaceQuote s = true)
    (cfg : Config) (os2 : ExecOracle) (checkoutExists : Bool) (tmp_dir : String)
    (payload : List Nat) (xSignature : Option String) (req : RevertRequest) (m : String)
    (hauth : cfg.GITBOT_API_SECRET = "")
    (hpgr : (process_git_revert cfg os2 checkoutExists tmp_dir req).1 =
      Except.error (RunError.exception m)) :
    run os (Cmd.str s) cwd =
      (Except.error (RunError.exception
        ("The command " ++ s ++ " contains double quotes. Pass a list instead of a string.")),
        []) ∧
    revert cfg os2 checkoutExists tmp_dir payload xSignature req =
      (Except.error (RunError.exception m),
        (process_git_revert cfg os2 checkoutExists tmp_dir req).2) := by
  constructor
  · simp [run, hq]
  · rcases hp : process_git_revert cfg os2 checkoutExists tmp_dir req with ⟨e, t⟩
    rw [hp] at hpgr
    simp only at hpgr
    subst hpgr
    unfold revert
    rw [hp]
    simp [hauth]

/-- Witness for C10: a revert request whose sha embeds a space and a
double quote, so the log query command is rejected and the exception
escapes the revert route. -/
theorem run_space_quote_exception_uncaught_witness :
    hasSpaceQuote "git log -1 --format=\x22%s\x22 a \x22b" = true ∧
    run (fun _ _ => (0, [])) (Cmd.str "git log -1 --format=\x22%s\x22 a \x22b") "/tmp/rv" =
      (Except.error (RunError.exception
        ("The command " ++ "git log -1 --format=\x22%s\x22 a \x22b" ++
          " contains double quotes. Pass a list instead of a string.")), []) ∧
    revert
      ⟨false, "production", true, "getsentry/sentry", "#sync-getsentry", "s", "",
        "file:///sentry", "file:///getsentry", "/tmp/sentry", "/tmp/getsentry"⟩
      (fun _ _ => (0, [])) true "/tmp/rv" [] none ⟨"sentry", "a \x22b", "Jane Doe"⟩ =
      (Except.error (RunError.exception
        ("The command " ++ "git log -1 --format=\x22%s\x22 a \x22b" ++
          " contains double quotes. Pass a list instead of a string.")),
        [Effect.mkdtemp "/tmp/rv",
         Effect.exec ["git", "fetch", "origin", "master"] "/tmp/sentry",
         Effect.exec ["git", "reset", "--hard", "origin/master"] "/tmp/sentry",
         Effect.exec ["git", "pull", "origin", "master"] "/tmp/sentry",
         Effect.exec ["git", "clone", "/tmp/sentry", "/tmp/rv"] "/tmp"]) := by
  have h := run_space_quote_exception_uncaught
    (fun _ _ => (0, [])) "git log -1 --format=\x22%s\x22 a \x22b" "/tmp/rv" (by decide)
    ⟨false, "production", true, "getsentry/sentry", "#sync-getsentry", "s", "",
      "file:///sentry", "file:///getsentry", "/tmp/sentry", "/tmp/getsentry"⟩
    (fun _ _ => (0, [])) true "/tmp/rv" [] none ⟨"sentry", "a \x22b", "Jane Doe"⟩
    ("The command " ++ "git log -1 --format=\x22%s\x22 a \x22b" ++
      " contains double quotes. Pass a list instead of a string.")
    rfl rfl
  refine ⟨by decide, h.1, ?_⟩
  rw [h.2]
  rfl

/-- The SHA-1 embedding matches the standard test vector for the empty
message, pinning the hash implementation the verification above relies
on. -/
theorem sha1_empty_vector :
    bytesToHex (sha1Bytes []) = "da39a3ee5e6b4b0d3255bfef95601890afd80709" := by decide

/-- The HMAC-SHA1 embedding matches the RFC 2202 style test vector for
key "key" over the quick-brown-fox message. -/
theorem hmac_sha1_vector :
    hmac_hexdigest "key" (encodeUtf8 "The quick brown fox jumps over the lazy dog") =
      "de7c9b85b8b78aa6bc8a7a36f70a90701c9db4d9" := by decide
